import Mathlib

/-!
Shallow embedding of src/pdf2image/pdf2image.py.

The module wraps two external libraries: a rendering library (fitz) used by
convert_from_path and convert_from_bytes, and a metadata-parsing library
(pdfminer) used by pdfinfo_from_path. Both are opaque collaborators; they are
modelled by the inductive source types FitzSource and PdfminerSource, which
record the outcomes those libraries can produce on a given document. All
control flow, string manipulation, directory bookkeeping and exception
handling of the Python module itself is embedded faithfully, statement by
statement. Python exceptions are values of PyErr inside Except; Python None
returned from a function is Option.none.
-/

namespace Pdf2Image

/-- Lexicographic code-point comparison of character lists, the order Python
uses to compare strings. -/
def lexLe : List Char → List Char → Bool
  | [], _ => true
  | _ :: _, [] => false
  | a :: as, b :: bs =>
      if a.toNat < b.toNat then true
      else if b.toNat < a.toNat then false
      else lexLe as bs

/-- String comparison, modelling Python string less-or-equal. -/
def strLe (a b : String) : Bool := lexLe a.data b.data

/-- A filename-sorted directory listing, modelling sorted(os.listdir(folder)). -/
def sortedListing (l : List String) : List String :=
  List.insertionSort (fun a b => strLe a b = true) l

/-- Modelling os.path.join(folder, f) for a folder path without a trailing
separator. -/
def joinPath (a b : String) : String := a ++ "/" ++ b

/-- Split a character list at every dot, modelling Python str.split on a dot. -/
def splitOnDotAux (acc : List Char) : List Char → List (List Char)
  | [] => [acc.reverse]
  | c :: cs =>
      if c = '.' then acc.reverse :: splitOnDotAux [] cs
      else splitOnDotAux (c :: acc) cs

/-- The last dot-separated component of a filename, modelling the source
expression that splits a filename on dots and keeps the final piece. -/
def lastExt (f : String) : String :=
  String.mk ((splitOnDotAux [] f.data).getLastD [])

/-- The extension test applied to each directory entry by
the output-folder loader. -/
def extMatches (ext f : String) : Bool := lastExt f == ext

/-- A Python exception raised by the embedded code or by a wrapped library. -/
inductive PyErr where
  /-- TypeError: os.path.join received Python None as its first argument. -/
  | typeError
  /-- The rendering library could not open the path; its own exception
  propagates because convert_from_path has no handler. -/
  | fitzFileNotFound
  /-- NameError: a name that is not bound in the current scope was evaluated. -/
  | nameError
  /-- PDFInfoNotInstalledError from the exceptions module of this package. -/
  | pdfInfoNotInstalledError
  /-- PDFPageCountError from the exceptions module of this package. -/
  | pdfPageCountError
  /-- Modelled from the spec: the DocumentOpenError kind named by the spec
  error taxonomy for an unreadable, missing or corrupt source. The code under
  src imports no such class and never raises one, so no code path below
  produces this constructor. -/
  | documentOpenError
  deriving DecidableEq

/-- Modelled from the spec: recognises the spec DocumentOpenError kind, the
distinct cannot-open-document error the spec requires for unreadable or
missing sources. -/
def is_document_open_error : PyErr → Bool
  | PyErr.documentOpenError => true
  | _ => false

/-- An element of the list built by the output-folder loader: either a full
path (paths-only mode) or an image object opened from a file, with a flag
recording whether the pixel data was fully decoded into memory. -/
inductive Collected where
  | path (p : String)
  | image (name : String) (loaded : Bool)
  deriving DecidableEq

/-- Embedding of the private output-folder loader: list the directory in
sorted order, keep entries whose final dot-separated component equals ext,
and per entry either record the joined path (paths-only mode) or open the
image, additionally forcing a full decode when in_memory is set. -/
def load_from_output_folder (output_folder : String) (listing : List String)
    (ext : String) (paths_only : Bool) (in_memory : Bool) : List Collected :=
  (sortedListing listing).filterMap fun f =>
    if extMatches ext f then
      some (if paths_only then Collected.path (joinPath output_folder f)
            else Collected.image f in_memory)
    else none

/-- A document as the rendering library presents it to convert_from_path:
either the open call fails, or it yields a document handle with a page
count. -/
inductive FitzSource where
  | missing
  | doc (pages : Nat)
  deriving DecidableEq

/-- A rasterised page, the value of get_pixmap on a loaded page. -/
structure Pixmap where
  page_num : Nat
  dpi : Nat
  deriving DecidableEq

/-- The filename the per-page loop builds for page index page_num: the string
page_ followed by the one-based page number and the png suffix, with no zero
padding. -/
def pageFilename (page_num : Nat) : String :=
  "page_" ++ toString (page_num + 1) ++ ".png"

/-- The filenames the loop builds for a document with the given page count,
in page order. -/
def pageFilenames (pages : Nat) : List String :=
  (List.range pages).map pageFilename

/-- One iteration of the page loop in convert_from_path: load the page,
compute its pixmap at the requested dpi, then build the output path by
joining the output folder with the page filename. os.path.join raises
TypeError when the folder is Python None. The save call on the pixmap is
commented out in the source, so the iteration performs no write. -/
def renderPageStep (output_folder : Option String) (dpi : Nat) (page_num : Nat) :
    Except PyErr (Pixmap × String) :=
  match output_folder with
  | none => Except.error PyErr.typeError
  | some folder =>
      Except.ok (⟨page_num, dpi⟩, joinPath folder (pageFilename page_num))

/-- The page loop of convert_from_path over the given page indices. The
directory listing is threaded through so the filesystem effect of the loop is
explicit: every iteration discards its pixmap and path without writing, so
the listing passes through unchanged. -/
def renderLoop (output_folder : Option String) (dpi : Nat) (listing : List String) :
    List Nat → Except PyErr Unit × List String
  | [] => (Except.ok (), listing)
  | p :: ps =>
      match renderPageStep output_folder dpi p with
      | Except.error e => (Except.error e, listing)
      | Except.ok _ => renderLoop output_folder dpi listing ps

/-- The fresh path returned by tempfile.mkdtemp when no output folder was
supplied. -/
def tempDirPath : String := "/tmp/pdf2image_auto"

/-- Decidable equality for Except values, needed to evaluate outcomes on
concrete inputs. -/
instance instDecEqExcept {ε : Type u} {α : Type v} [DecidableEq ε] [DecidableEq α] :
    DecidableEq (Except ε α)
  | Except.error e1, Except.error e2 =>
      if h : e1 = e2 then isTrue (congrArg Except.error h)
      else isFalse (fun hc => h (Except.error.inj hc))
  | Except.error _, Except.ok _ => isFalse (fun hc => Except.noConfusion hc)
  | Except.ok _, Except.error _ => isFalse (fun hc => Except.noConfusion hc)
  | Except.ok x, Except.ok y =>
      if h : x = y then isTrue (congrArg Except.ok h)
      else isFalse (fun hc => h (Except.ok.inj hc))

/-- Outcome of one call to convert_from_path: the value the Python function
returns, or the exception it raises, together with the final contents of the
output directory the call used (the caller-supplied one when given, the
auto-created temporary one otherwise; on an exception raised before any
directory is used, the supplied listing is reported unchanged). -/
structure ConvertOutcome where
  ret : Except PyErr (Option (List Collected))
  dirListing : List String
  deriving DecidableEq

/-- Embedding of convert_from_path. It opens the document with the rendering
library, runs the per-page loop (which computes pixmaps and output paths but
never writes), then creates a temporary directory when no output folder was
supplied, loads whatever the output directory holds, and falls off the end of
the function body, so Python returns None. -/
def convert_from_path (src : FitzSource) (dpi : Nat) (output_folder : Option String)
    (folderListing : List String) (thread_count : Nat) (paths_only : Bool) :
    ConvertOutcome :=
  let _threads := thread_count
  match src with
  | FitzSource.missing =>
      ⟨Except.error PyErr.fitzFileNotFound, folderListing⟩
  | FitzSource.doc pages =>
      match renderLoop output_folder dpi folderListing (List.range pages) with
      | (Except.error e, l) => ⟨Except.error e, l⟩
      | (Except.ok _, l) =>
          match output_folder with
          | none =>
              let tempListing : List String := []
              let _images :=
                load_from_output_folder tempDirPath tempListing "png" paths_only true
              ⟨Except.ok none, tempListing⟩
          | some folder =>
              let _images :=
                load_from_output_folder folder l "png" paths_only false
              ⟨Except.ok none, l⟩

/-- Modelling os.remove on the temporary file: after removal it no longer
exists, whatever its prior state. -/
def osRemove (_present : Bool) : Bool := false

/-- Outcome of one call to convert_from_bytes: the outcome of the delegated
convert_from_path call, plus whether the temporary file created by
tempfile.mkstemp still exists when the call returns or raises. -/
structure BytesOutcome where
  outcome : ConvertOutcome
  tempFileExists : Bool
  deriving DecidableEq

/-- Embedding of convert_from_bytes: create a temporary file with
tempfile.mkstemp, write the buffer to it inside a try block, delegate to
convert_from_path on that filename, and in the finally block close and remove
the temporary file; the finally block runs whether the delegated call
returned or raised. -/
def convert_from_bytes (src : FitzSource) (dpi : Nat) (output_folder : Option String)
    (folderListing : List String) (thread_count : Nat) (paths_only : Bool) :
    BytesOutcome :=
  let afterMkstemp := true
  let result := convert_from_path src dpi output_folder folderListing thread_count paths_only
  let afterFinally := osRemove afterMkstemp
  ⟨result, afterFinally⟩

/-- A value in a pdfminer info dictionary. -/
inductive InfoVal where
  | str (s : String)
  | int (n : Nat)
  deriving DecidableEq

/-- Python dict lookup on an association list with string keys. -/
def dictGet : List (String × InfoVal) → String → Option InfoVal
  | [], _ => none
  | p :: ps, k => if p.1 = k then some p.2 else dictGet ps k

/-- Python dict assignment on an association list: overwrite the entry in
place when the key is present, append otherwise. -/
def dictSet : List (String × InfoVal) → String → InfoVal → List (String × InfoVal)
  | [], k, v => [(k, v)]
  | p :: ps, k, v =>
      if p.1 = k then (k, v) :: dictSet ps k v else p :: dictSet ps k v

/-- A document as the metadata path of pdfinfo_from_path sees it: the open
call can raise OSError (missing or unreadable path), the int conversion of
the resolved page-tree Count entry can raise ValueError (malformed count), or
parsing succeeds with an info dictionary and a page count. -/
inductive PdfminerSource where
  | missing
  | malformedCount (info : List (String × InfoVal))
  | parsed (info : List (String × InfoVal)) (pages : Nat)
  deriving DecidableEq

/-- The names bound in pdfinfo_from_path when its ValueError handler runs:
the parameters, the three imported pdfminer names, and the locals assigned
before the int conversion. The name err is not among them. -/
def pdfinfoHandlerScope : List String :=
  ["pdf_path", "userpw", "ownerpw", "poppler_path", "rawdates", "timeout",
   "first_page", "last_page", "PDFParser", "PDFDocument", "resolve1",
   "fp", "parser", "d", "info"]

/-- Evaluating a Python f-string: every interpolated name must resolve in the
current scope, otherwise NameError is raised before the enclosing statement
runs. -/
def evalFString (scope : List String) (names : List String) (msg : String) :
    Except PyErr String :=
  if names.all (fun n => scope.contains n) then Except.ok msg
  else Except.error PyErr.nameError

/-- Embedding of pdfinfo_from_path. On success it takes the first info
dictionary of the parsed document and assigns the resolved page count to its
Pages key. OSError from the open call is caught and re-raised as
PDFInfoNotInstalledError. ValueError from the int conversion is caught by a
handler that first evaluates a message f-string interpolating the name err,
which is not bound in the function. -/
def pdfinfo_from_path (src : PdfminerSource) :
    Except PyErr (List (String × InfoVal)) :=
  match src with
  | PdfminerSource.missing =>
      Except.error PyErr.pdfInfoNotInstalledError
  | PdfminerSource.malformedCount _info =>
      match evalFString pdfinfoHandlerScope ["err"] "Unable to get page count." with
      | Except.error e => Except.error e
      | Except.ok _msg => Except.error PyErr.pdfPageCountError
  | PdfminerSource.parsed info pages =>
      Except.ok (dictSet info "Pages" (InfoVal.int pages))

/-- Whether a collected item remains usable after its source directory is
discarded: a path is a plain string, and an image counts once its pixel data
is fully decoded. -/
def Collected.isLoaded : Collected → Bool
  | Collected.path _ => true
  | Collected.image _ loaded => loaded

theorem renderLoop_listing (of : Option String) (dpi : Nat) (l : List String) :
    ∀ ps : List Nat, (renderLoop of dpi l ps).2 = l
  | [] => rfl
  | p :: ps => by
      simp only [renderLoop]
      cases renderPageStep of dpi p with
      | error e => rfl
      | ok x => exact renderLoop_listing of dpi l ps

theorem filterMap_ite {α β : Type u} (p : α → Bool) (g : α → β) (l : List α) :
    (l.filterMap fun a => if p a then some (g a) else none) = (l.filter p).map g := by
  induction l with
  | nil => rfl
  | cons a l ih =>
      by_cases h : p a = true <;>
        simp [List.filterMap_cons, List.filter_cons, h, ih]

theorem lexLe_head_le {a b : Char} {as bs : List Char}
    (h : lexLe (a :: as) (b :: bs) = true) : a.toNat ≤ b.toNat := by
  by_contra hlt
  push_neg at hlt
  unfold lexLe at h
  rw [if_neg (by omega), if_pos (by omega)] at h
  exact Bool.noConfusion h

theorem lexLe_total : ∀ a b : List Char, lexLe a b = true ∨ lexLe b a = true
  | [], _ => Or.inl rfl
  | _ :: _, [] => Or.inr rfl
  | a :: as, b :: bs => by
      unfold lexLe
      rcases Nat.lt_trichotomy a.toNat b.toNat with h | h | h
      · left; rw [if_pos h]
      · rw [if_neg (by omega), if_neg (by omega), if_neg (by omega), if_neg (by omega)]
        exact lexLe_total as bs
      · right; rw [if_pos h]

theorem lexLe_trans : ∀ a b c : List Char, lexLe a b = true → lexLe b c = true →
    lexLe a c = true
  | [], _, _, _, _ => rfl
  | _ :: _, [], _, h1, _ => Bool.noConfusion h1
  | _ :: _, _ :: _, [], _, h2 => Bool.noConfusion h2
  | a :: as, b :: bs, c :: cs, h1, h2 => by
      have hab := lexLe_head_le h1
      have hbc := lexLe_head_le h2
      unfold lexLe
      by_cases hac : a.toNat < c.toNat
      · rw [if_pos hac]
      · rw [if_neg hac, if_neg (by omega)]
        unfold lexLe at h1 h2
        rw [if_neg (by omega), if_neg (by omega)] at h1
        rw [if_neg (by omega), if_neg (by omega)] at h2
        exact lexLe_trans as bs cs h1 h2

instance strLeIsTotal : IsTotal String (fun a b => strLe a b = true) :=
  ⟨fun a b => lexLe_total a.data b.data⟩

instance strLeIsTrans : IsTrans String (fun a b => strLe a b = true) :=
  ⟨fun a b c => lexLe_trans a.data b.data c.data⟩

theorem dictGet_dictSet (d : List (String × InfoVal)) (k q : String) (v : InfoVal) :
    dictGet (dictSet d k v) q = if q = k then some v else dictGet d q := by
  induction d with
  | nil =>
      by_cases h : q = k
      · simp [dictSet, dictGet, h]
      · have h2 : ¬ k = q := fun hk => h hk.symm
        simp [dictSet, dictGet, h, h2]
  | cons p ps ih =>
      by_cases hp : p.1 = k
      · by_cases hq : q = k
        · simp [dictSet, dictGet, hp, hq, ih]
        · have hpq : ¬ p.1 = q := fun h => hq (h ▸ hp)
          have hkq : ¬ k = q := fun hk => hq hk.symm
          simp [dictSet, dictGet, hp, hq, ih, hpq, hkq]
      · by_cases hq : q = k
        · subst hq
          simp [dictSet, dictGet, hp, ih]
        · by_cases hpq : p.1 = q <;> simp [dictSet, dictGet, hp, hq, ih, hpq]

/-- C1: the claim says convert_from_path with no output folder returns a list
of exactly N in-memory images for an N-page document. The code raises
TypeError for any document with at least one page, because the page loop
joins the output path before the temporary directory is created, while the
output folder is still Python None; and even on a zero-page document the
function body ends without a return statement, so Python returns None, never
a list. -/
theorem c1_convert_from_path_returns_no_images :
    convert_from_path (FitzSource.doc 1) 200 none [] 1 false
      = ⟨Except.error PyErr.typeError, []⟩
    ∧ convert_from_path (FitzSource.doc 0) 200 none [] 1 false
      = ⟨Except.ok none, []⟩ := by decide

/-- C2: no call to convert_from_path creates or modifies an image file: with
a caller-supplied output folder the directory contents after the call equal
the contents before it, and the per-page rendering loop preserves any
directory listing, since the pixmap save call is commented out. -/
theorem c2_rendering_stage_writes_nothing (src : FitzSource) (dpi : Nat)
    (f : String) (l : List String) (tc : Nat) (po : Bool)
    (of : Option String) (ps : List Nat) :
    (convert_from_path src dpi (some f) l tc po).dirListing = l
    ∧ (renderLoop of dpi l ps).2 = l := by
  refine ⟨?_, renderLoop_listing of dpi l ps⟩
  cases src with
  | missing => rfl
  | doc pages =>
      have h := renderLoop_listing (some f) dpi l (List.range pages)
      rcases hr : renderLoop (some f) dpi l (List.range pages) with ⟨r, l2⟩
      rw [hr] at h
      simp only [convert_from_path, hr]
      cases r <;> simpa using h

/-- C3: after any call to convert_from_bytes, the temporary file it created
with tempfile.mkstemp no longer exists, both when the delegated call returns
normally and when it raises, because the removal sits in a finally block; and
the call otherwise delegates to convert_from_path unchanged. -/
theorem c3_temp_file_removed_after_convert_from_bytes (src : FitzSource)
    (dpi : Nat) (of : Option String) (l : List String) (tc : Nat) (po : Bool) :
    (convert_from_bytes src dpi of l tc po).tempFileExists = false
    ∧ (convert_from_bytes src dpi of l tc po).outcome
      = convert_from_path src dpi of l tc po := ⟨rfl, rfl⟩

/-- C4: for a password-free three-page document that parses, pdfinfo_from_path
returns a mapping whose Pages key holds the integer 3, and every other key
keeps the value it has in the document info dictionary. -/
theorem c4_pdfinfo_pages_field (info : List (String × InfoVal)) (k : String) :
    pdfinfo_from_path (PdfminerSource.parsed info 3)
      = Except.ok (dictSet info "Pages" (InfoVal.int 3))
    ∧ dictGet (dictSet info "Pages" (InfoVal.int 3)) "Pages"
      = some (InfoVal.int 3)
    ∧ dictGet (dictSet info "Pages" (InfoVal.int 3)) k
      = if k = "Pages" then some (InfoVal.int 3) else dictGet info k := by
  refine ⟨rfl, ?_, dictGet_dictSet info "Pages" k (InfoVal.int 3)⟩
  rw [dictGet_dictSet]
  simp

/-- C5: the claim says the metadata reader produces PDFInfoNotInstalledError
when the tooling is unavailable and PDFPageCountError when the page count
cannot be resolved. The first path behaves as claimed, but on a malformed
page count the ValueError handler evaluates a message f-string that
interpolates the unbound name err, so the call raises NameError instead of
PDFPageCountError. -/
theorem c5_malformed_count_raises_name_error
    (info : List (String × InfoVal)) :
    pdfinfo_from_path PdfminerSource.missing
      = Except.error PyErr.pdfInfoNotInstalledError
    ∧ pdfinfo_from_path (PdfminerSource.malformedCount info)
      = Except.error PyErr.nameError := ⟨rfl, rfl⟩

/-- C6 counterexample: on a missing source path, neither entry point raises
the distinct cannot-open-document error kind the claim requires:
pdfinfo_from_path raises PDFInfoNotInstalledError, the tool-unavailable kind,
and convert_from_path lets the rendering library error propagate unhandled;
neither is a document-open error. -/
theorem c6_counterexample_no_document_open_error :
    pdfinfo_from_path PdfminerSource.missing
      = Except.error PyErr.pdfInfoNotInstalledError
    ∧ is_document_open_error PyErr.pdfInfoNotInstalledError = false
    ∧ (convert_from_path FitzSource.missing 200 none [] 1 false).ret
      = Except.error PyErr.fitzFileNotFound
    ∧ is_document_open_error PyErr.fitzFileNotFound = false := by decide

/-- C6 amended: on a missing source path both entry points do fail loudly
rather than silently: convert_from_path propagates the rendering library
error unhandled, and pdfinfo_from_path raises PDFInfoNotInstalledError, the
tool-unavailable kind rather than a document-open kind. -/
theorem c6_missing_source_error_surfaces (dpi : Nat) (of : Option String)
    (l : List String) (tc : Nat) (po : Bool) :
    (convert_from_path FitzSource.missing dpi of l tc po).ret
      = Except.error PyErr.fitzFileNotFound
    ∧ pdfinfo_from_path PdfminerSource.missing
      = Except.error PyErr.pdfInfoNotInstalledError := ⟨rfl, rfl⟩

/-- C7 counterexample: for a ten-page document the page filenames the loop
builds are not zero padded, so their lexical sort puts page 10 directly after
page 1 and the sorted order differs from numeric page order. -/
theorem c7_counterexample_filenames_unsorted :
    sortedListing (pageFilenames 10) ≠ pageFilenames 10
    ∧ sortedListing (pageFilenames 10)
      = ["page_1.png", "page_10.png", "page_2.png", "page_3.png",
         "page_4.png", "page_5.png", "page_6.png", "page_7.png",
         "page_8.png", "page_9.png"] := by decide

/-- C7 amended: for documents with at most nine pages the page filenames sort
lexically into correct numeric page order; from ten pages on the unpadded
numbering breaks that order. -/
theorem c7_sorted_below_ten_pages (n : Nat) (h : n ≤ 9) :
    sortedListing (pageFilenames n) = pageFilenames n := by
  interval_cases n <;> decide

/-- Witness for the amended C7 at nine pages. -/
theorem c7_sorted_below_ten_pages_witness :
    9 ≤ 9 ∧ sortedListing (pageFilenames 9) = pageFilenames 9 :=
  ⟨by decide, c7_sorted_below_ten_pages 9 (by decide)⟩

/-- C8: the output collector returns exactly the directory entries whose last
dot-separated component equals the expected extension, taken in lexical
filename order: the result is the sorted matching entries, mapped to full
joined paths in paths-only mode and to opened images otherwise; the matching
entries are a permutation of the matching entries of the raw listing and are
pairwise lexically ordered; and with in_memory set every returned image is
fully decoded. -/
theorem c8_output_collector_contract (folder : String) (listing : List String)
    (ext : String) (po mem : Bool) :
    load_from_output_folder folder listing ext po mem
      = ((sortedListing listing).filter (extMatches ext)).map
          (fun f => if po then Collected.path (joinPath folder f)
                    else Collected.image f mem)
    ∧ ((sortedListing listing).filter (extMatches ext)).Perm
        (listing.filter (extMatches ext))
    ∧ ((sortedListing listing).filter (extMatches ext)).Pairwise
        (fun a b => strLe a b = true)
    ∧ (load_from_output_folder folder listing ext false true).all
        Collected.isLoaded = true := by
  refine ⟨filterMap_ite _ _ _, ?_, ?_, ?_⟩
  · exact (List.perm_insertionSort _ listing).filter _
  · exact (List.sorted_insertionSort _ listing).filter _
  · rw [show load_from_output_folder folder listing ext false true
        = ((sortedListing listing).filter (extMatches ext)).map
            (fun f => Collected.image f true) from filterMap_ite _ _ _]
    simp only [List.all_eq_true, List.mem_map]
    rintro c ⟨f, hf, rfl⟩
    rfl

/-- C9: the claim says rendering into an explicit directory and reading it
back with the collector matches rendering directly to memory. On a one-page
document the direct-to-memory call raises TypeError, while the call with an
explicit directory returns Python None after writing nothing, so reading the
directory back yields zero images instead of one. -/
theorem c9_roundtrip_broken :
    (convert_from_path (FitzSource.doc 1) 200 none [] 1 false).ret
      = Except.error PyErr.typeError
    ∧ convert_from_path (FitzSource.doc 1) 200 (some "out") [] 1 false
      = ⟨Except.ok none, []⟩
    ∧ load_from_output_folder "out"
        (convert_from_path (FitzSource.doc 1) 200 (some "out") [] 1 false).dirListing
        "png" false false = [] := by decide

/-- C10: two calls to convert_from_path or convert_from_bytes on the same
document and otherwise identical arguments that differ only in thread_count
produce identical outcomes, because the parameter is accepted and never
used. -/
theorem c10_thread_count_invariance (src : FitzSource) (dpi : Nat)
    (of : Option String) (l : List String) (t1 t2 : Nat) (po : Bool) :
    convert_from_path src dpi of l t1 po = convert_from_path src dpi of l t2 po
    ∧ convert_from_bytes src dpi of l t1 po
      = convert_from_bytes src dpi of l t2 po := ⟨rfl, rfl⟩

end Pdf2Image
